import Mathlib

/-!
Verification of the walrus-mcp repository: a shallow embedding of the Walrus
storage gateway client (src/walrus-client.ts) and the MCP tool/resource
dispatcher (the server entry point), with the JavaScript idioms the source
relies on — truthiness of `a || b`, Node's lenient base64 decoding,
`parseInt` — modelled explicitly.  HTTP calls and the filesystem are modelled
as explicit parameters (the outcome the `catch` blocks observe), so every
operation is a total function of its inputs.
-/

/-- JavaScript `a || b` for an optional string `a`: `undefined` and the empty
string are falsy, so both fall through to `b`. -/
def jsOr (a : Option String) (b : String) : String :=
  match a with
  | some s => if s = "" then b else s
  | none => b

/-- JavaScript `a || b` where both operands may be `undefined`. -/
def jsOrOpt (a b : Option String) : Option String :=
  match a with
  | some s => if s = "" then b else some s
  | none => b

/-- The base64 alphabet index of a character (`A`–`Z`, `a`–`z`, `0`–`9`, `+`,
`/`); `none` for every other character. -/
def base64Index (c : Char) : Option Nat :=
  if 'A' ≤ c ∧ c ≤ 'Z' then some (c.toNat - 65)
  else if 'a' ≤ c ∧ c ≤ 'z' then some (c.toNat - 71)
  else if '0' ≤ c ∧ c ≤ '9' then some (c.toNat + 4)
  else if c = '+' then some 62
  else if c = '/' then some 63
  else none

/-- Decode a stream of base64 sextets into bytes: four sextets give three
bytes; a trailing group of three gives two bytes, a trailing pair one byte,
and a lone trailing sextet (or nothing) gives no byte. -/
def sextetsToBytes : List Nat → List Nat
  | a :: b :: c :: d :: rest =>
      (a * 4 + b / 16) :: (b % 16 * 16 + c / 4) :: (c % 4 * 64 + d) :: sextetsToBytes rest
  | [a, b] => [a * 4 + b / 16]
  | [a, b, c] => [a * 4 + b / 16, b % 16 * 16 + c / 4]
  | _ => []

/-- Node's lenient base64 decoder, `Buffer.from(data, 'base64')`: characters
outside the alphabet (`=` padding and whitespace included) are dropped rather
than rejected, and the remaining sextets are decoded.  It never fails. -/
def decodeBase64 (s : String) : List Nat :=
  sextetsToBytes (s.data.filterMap base64Index)

/-- The base64 alphabet character of a sextet. -/
def base64Char (n : Nat) : Char :=
  if n < 26 then Char.ofNat (65 + n)
  else if n < 52 then Char.ofNat (97 + (n - 26))
  else if n < 62 then Char.ofNat (48 + (n - 52))
  else if n = 62 then '+'
  else '/'

/-- Standard base64 encoding with `=` padding, as in
`Buffer.prototype.toString('base64')`. -/
def encodeBase64Chars : List Nat → List Char
  | b1 :: b2 :: b3 :: rest =>
      base64Char (b1 / 4) :: base64Char (b1 % 4 * 16 + b2 / 16) ::
        base64Char (b2 % 16 * 4 + b3 / 64) :: base64Char (b3 % 64) ::
          encodeBase64Chars rest
  | [b1, b2] =>
      [base64Char (b1 / 4), base64Char (b1 % 4 * 16 + b2 / 16),
        base64Char (b2 % 16 * 4), '=']
  | [b1] => [base64Char (b1 / 4), base64Char (b1 % 4 * 16), '=', '=']
  | [] => []

def encodeBase64 (bs : List Nat) : String := ⟨encodeBase64Chars bs⟩

/-- The value of a run of leading decimal digits; `none` when there is none
(JavaScript `parseInt` returns `NaN` there). -/
def leadingDigits (cs : List Char) : Option Nat :=
  let ds := cs.takeWhile Char.isDigit
  if ds.isEmpty then none
  else some (ds.foldl (fun acc c => acc * 10 + (c.toNat - 48)) 0)

/-- JavaScript `parseInt(s)` with the default radix 10: skip leading
whitespace, read an optional sign, then the leading digits; `none` models
`NaN`. -/
def jsParseInt (s : String) : Option Int :=
  match s.data.dropWhile (fun c => c = ' ' || c = '\t' || c = '\n' || c = '\r') with
  | '-' :: rest => (leadingDigits rest).map (fun n => -(n : Int))
  | '+' :: rest => (leadingDigits rest).map (fun n => (n : Int))
  | cs => (leadingDigits cs).map (fun n => (n : Int))

/-- `BlobInfo` (src/walrus-client.ts): the normalized record `storeBlob`
returns.  Optional TypeScript fields are `Option`s. -/
structure BlobInfo where
  blobId : String
  size : Int
  encodedSize : Int
  storageId : String
  certified : Bool
  certifiedEpoch : Option Int := none
  endEpoch : Option Int := none
deriving Repr, DecidableEq

/-- `NetworkStatus` (src/walrus-client.ts). -/
structure NetworkStatus where
  epoch : Int
  networkSize : Int
  totalStored : Int
  availableStorage : Int
deriving Repr, DecidableEq

/-- `WalrusConfig` (src/walrus-client.ts); `wallet` is optional. -/
structure WalrusConfig where
  aggregatorUrl : String
  publisherUrl : String
  systemObject : String
  wallet : Option String := none
deriving Repr, DecidableEq

/-- The `Partial<WalrusConfig>` argument of the `WalrusClient` constructor:
every field may be missing. -/
structure WalrusConfigOverrides where
  aggregatorUrl : Option String := none
  publisherUrl : Option String := none
  systemObject : Option String := none
  wallet : Option String := none
deriving Repr, DecidableEq

/-- The four process environment variables the constructor reads
(WALRUS_AGGREGATOR_URL, WALRUS_PUBLISHER_URL, WALRUS_SYSTEM_OBJECT,
WALRUS_WALLET_PATH); a variable that is not set is `none`. -/
structure WalrusEnv where
  aggregatorUrl : Option String := none
  publisherUrl : Option String := none
  systemObject : Option String := none
  walletPath : Option String := none
deriving Repr, DecidableEq

def defaultAggregatorUrl : String := "https://aggregator-devnet.walrus.space"

def defaultPublisherUrl : String := "https://publisher-devnet.walrus.space"

def defaultSystemObject : String :=
  "0x37c0e4d7b36a2f64d51bba262a1791f844cfd88f19c35b5ca709e1a6991e90dc"

/-- The `WalrusClient` constructor's configuration resolution:
`config?.field || process.env.VAR || 'default'` for the three endpoint/object
fields, and `config?.wallet || process.env.WALRUS_WALLET_PATH` (no hardcoded
default) for the wallet. -/
def mkConfig (config : Option WalrusConfigOverrides) (env : WalrusEnv) : WalrusConfig :=
  { aggregatorUrl :=
      jsOr (jsOrOpt (config.bind fun c => c.aggregatorUrl) env.aggregatorUrl)
        defaultAggregatorUrl
    publisherUrl :=
      jsOr (jsOrOpt (config.bind fun c => c.publisherUrl) env.publisherUrl)
        defaultPublisherUrl
    systemObject :=
      jsOr (jsOrOpt (config.bind fun c => c.systemObject) env.systemObject)
        defaultSystemObject
    wallet := jsOrOpt (config.bind fun c => c.wallet) env.walletPath }

/-- `newlyCreated.blobObject` of a publisher reply. -/
structure BlobObject where
  blobId : String
  size : Int
  encodedSize : Int
  id : String
deriving Repr, DecidableEq

/-- `newlyCreated.resourceObject.storage` of a publisher reply. -/
structure StorageObject where
  startEpoch : Option Int := none
  endEpoch : Option Int := none
deriving Repr, DecidableEq

/-- `newlyCreated.resourceObject` of a publisher reply. -/
structure ResourceObject where
  storage : Option StorageObject := none
deriving Repr, DecidableEq

/-- The `newlyCreated` shape of a publisher reply. -/
structure NewlyCreated where
  blobObject : BlobObject
  resourceObject : Option ResourceObject := none
deriving Repr, DecidableEq

/-- The `alreadyCertified` shape of a publisher reply. -/
structure AlreadyCertified where
  blobId : String
  certifiedEpoch : Option Int := none
  endEpoch : Option Int := none
deriving Repr, DecidableEq

/-- The body of a successful publisher reply: it may carry a `newlyCreated`
object, an `alreadyCertified` object, neither, or both (`storeBlob` checks
`newlyCreated` first). -/
structure StoreReply where
  newlyCreated : Option NewlyCreated := none
  alreadyCertified : Option AlreadyCertified := none
deriving Repr, DecidableEq

def unexpectedResponseMsg : String := "Unexpected response format from Walrus publisher"

/-- Lines 75–97 of `storeBlob`: normalize the two reply shapes into
`BlobInfo`; any other shape throws the `Unexpected response format` error. -/
def normalizeStoreReply (d : StoreReply) : Except String BlobInfo :=
  match d.newlyCreated with
  | some nc =>
      .ok { blobId := nc.blobObject.blobId
            size := nc.blobObject.size
            encodedSize := nc.blobObject.encodedSize
            storageId := nc.blobObject.id
            certified := nc.resourceObject.isSome
            certifiedEpoch := (nc.resourceObject.bind fun r => r.storage).bind fun s => s.startEpoch
            endEpoch := (nc.resourceObject.bind fun r => r.storage).bind fun s => s.endEpoch }
  | none =>
      match d.alreadyCertified with
      | some ac =>
          .ok { blobId := ac.blobId, size := 0, encodedSize := 0, storageId := ac.blobId
                certified := true, certifiedEpoch := ac.certifiedEpoch
                endEpoch := ac.endEpoch }
      | none => .error unexpectedResponseMsg

/-- JavaScript `s.startsWith(p)`, spelled out over the character lists so
concrete instances evaluate in the kernel. -/
def strStartsWith (s p : String) : Bool := p.data.isPrefixOf s.data

/-- Lines 53–54 of `storeBlob`: a payload starting with `/`, `./` or `../` is
treated as a file path. -/
def isFilePath (data : String) : Bool :=
  strStartsWith data "/" || strStartsWith data "./" || strStartsWith data "../"

/-- Lines 51–60 of `storeBlob`: read the file when the payload looks like a
path, otherwise decode it as (lenient) base64.  `fsys` models `fs.readFile`
(`.error` is the rejection's message). -/
def resolvePayload (fsys : String → Except String (List Nat)) (data : String) :
    Except String (List Nat) :=
  if isFilePath data then fsys data else .ok (decodeBase64 data)

def storeFailMsgStart : String := "Failed to store blob: "

/-- The outcome of one axios call, as the `catch` blocks observe it: a
success body; an axios error with the optional HTTP status of the response,
the optional `response.data.error` text and the transport `message`; or a
non-axios thrown error. -/
inductive HttpResult (α : Type) where
  | success (body : α)
  | axiosError (status : Option Nat) (remoteError : Option String) (message : String)
  | jsError (message : String)
deriving Repr, DecidableEq

/-- `storeBlob(data, epochs = 5)`: resolve the payload, PUT the raw bytes to
the publisher (`put bytes epochs` models the HTTP call, `epochs` travelling
as a query parameter), normalize the reply; the surrounding try/catch rewraps
every failure with `Failed to store blob: `, preferring the remote
`response.data.error` text (when truthy) for axios errors. -/
def storeBlob (fsys : String → Except String (List Nat))
    (put : List Nat → Int → HttpResult StoreReply)
    (data : String) (epochs : Int := 5) : Except String BlobInfo :=
  match resolvePayload fsys data with
  | .error m => .error (storeFailMsgStart ++ m)
  | .ok bytes =>
      match put bytes epochs with
      | .success body =>
          match normalizeStoreReply body with
          | .ok info => .ok info
          | .error m => .error (storeFailMsgStart ++ m)
      | .axiosError _ remote msg => .error (storeFailMsgStart ++ jsOr remote msg)
      | .jsError msg => .error (storeFailMsgStart ++ msg)

def blobNotFoundMsgStart : String := "Blob not found: "

def retrieveFailMsgStart : String := "Failed to retrieve blob: "

/-- `getBlob(blobId)`: GET the blob bytes from the aggregator and return them
base64-encoded; a 404 throws `Blob not found: id`; any other axios failure
throws `Failed to retrieve blob: ` with the remote error text when truthy,
else the transport message; a non-axios error is wrapped the same way. -/
def getBlob (resp : HttpResult (List Nat)) (blobId : String) : Except String String :=
  match resp with
  | .success body => .ok (encodeBase64 body)
  | .axiosError status remote msg =>
      if status = some 404 then .error (blobNotFoundMsgStart ++ blobId)
      else .error (retrieveFailMsgStart ++ jsOr remote msg)
  | .jsError msg => .error (retrieveFailMsgStart ++ msg)

def infoFailMsgStart : String := "Failed to get blob info: "

/-- The record `getBlobInfo` builds.  The source declares it as the same
`BlobInfo` interface, but its size fields come from `parseInt` on a response
header and may therefore be `NaN`; a JavaScript number that may be `NaN` is
modelled as `Option Int` (`none` = `NaN`). -/
structure InspectRecord where
  blobId : String
  size : Option Int
  encodedSize : Option Int
  storageId : String
  certified : Bool
deriving Repr, DecidableEq

/-- `getBlobInfo(blobId)`: HEAD request to the aggregator; the size is
`parseInt(response.headers['content-length'] || '0')` and the encoded size
repeats it; `certified` is `true` on any success; a 404 throws `Blob not
found`, any other failure `Failed to get blob info: `.  `resp` carries the
optional content-length header of a successful probe. -/
def getBlobInfo (resp : HttpResult (Option String)) (blobId : String) :
    Except String InspectRecord :=
  match resp with
  | .success contentLength =>
      let size := jsParseInt (jsOr contentLength "0")
      .ok { blobId := blobId, size := size, encodedSize := size
            storageId := blobId, certified := true }
  | .axiosError status remote msg =>
      if status = some 404 then .error (blobNotFoundMsgStart ++ blobId)
      else .error (infoFailMsgStart ++ jsOr remote msg)
  | .jsError msg => .error (infoFailMsgStart ++ msg)

/-- `{ success, message }` as returned by `deleteBlob`. -/
structure DeleteOutcome where
  success : Bool
  message : String
deriving Repr, DecidableEq

def deleteBlobMessage : String :=
  "Walrus blobs cannot be manually deleted. They will expire automatically based on their storage epochs."

/-- `deleteBlob(blobId)`: deletion is structurally unsupported; the body is a
single object literal, so it returns the same fixed failure outcome for every
identifier and can throw nothing. -/
def deleteBlob (_blobId : String) : DeleteOutcome :=
  { success := false, message := deleteBlobMessage }

/-- `listBlobs(limit = 10)`: Walrus has no native listing; always empty. -/
def listBlobs (_limit : Int := 10) : List String := []

/-- `getNetworkStatus()`: fixed placeholder data. -/
def getNetworkStatus : NetworkStatus :=
  { epoch := 1, networkSize := 100, totalStored := 1000000, availableStorage := 10000000 }

/-! ## Theorems -/

/-- C1: a publisher reply carrying a `newlyCreated` object is normalized to a
record preserving that object's size, encoded size and storage id; a reply
carrying (only) an `alreadyCertified` object is normalized to a record with
size 0, encoded size 0, `certified := true` and the certification epochs from
the reply; a reply carrying neither shape raises the fatal
`Unexpected response format` error. -/
theorem store_reply_normalization :
    (∀ (d : StoreReply) (nc : NewlyCreated), d.newlyCreated = some nc →
      normalizeStoreReply d = Except.ok
        { blobId := nc.blobObject.blobId
          size := nc.blobObject.size
          encodedSize := nc.blobObject.encodedSize
          storageId := nc.blobObject.id
          certified := nc.resourceObject.isSome
          certifiedEpoch := (nc.resourceObject.bind fun r => r.storage).bind fun s => s.startEpoch
          endEpoch := (nc.resourceObject.bind fun r => r.storage).bind fun s => s.endEpoch }) ∧
    (∀ (d : StoreReply) (ac : AlreadyCertified),
      d.newlyCreated = none → d.alreadyCertified = some ac →
      normalizeStoreReply d = Except.ok
        { blobId := ac.blobId, size := 0, encodedSize := 0, storageId := ac.blobId
          certified := true, certifiedEpoch := ac.certifiedEpoch
          endEpoch := ac.endEpoch }) ∧
    (∀ d : StoreReply, d.newlyCreated = none → d.alreadyCertified = none →
      normalizeStoreReply d = Except.error unexpectedResponseMsg) := by
  refine ⟨fun d nc h => ?_, fun d ac h1 h2 => ?_, fun d h1 h2 => ?_⟩
  · simp [normalizeStoreReply, h]
  · simp [normalizeStoreReply, h1, h2]
  · simp [normalizeStoreReply, h1, h2]

/-- A synthetic `newlyCreated` reply with size 42 (no resource object). -/
def exNewlyCreatedReply : StoreReply :=
  { newlyCreated := some
      { blobObject := { blobId := "blob-1", size := 42, encodedSize := 420, id := "storage-1" } } }

/-- A synthetic `alreadyCertified` reply (no size field). -/
def exAlreadyCertifiedReply : StoreReply :=
  { alreadyCertified := some
      { blobId := "blob-2", certifiedEpoch := some 7, endEpoch := some 12 } }

/-- A synthetic reply carrying neither shape. -/
def exEmptyReply : StoreReply := {}

/-- C1 witness: the three arms of the normalization at concrete replies — a
`newlyCreated` reply with size 42 yields size 42, an `alreadyCertified` reply
yields size 0, and an empty reply yields the fatal error. -/
theorem store_reply_normalization_witness :
    normalizeStoreReply exNewlyCreatedReply = Except.ok
      { blobId := "blob-1", size := 42, encodedSize := 420
        storageId := "storage-1", certified := false } ∧
    normalizeStoreReply exAlreadyCertifiedReply = Except.ok
      { blobId := "blob-2", size := 0, encodedSize := 0, storageId := "blob-2"
        certified := true, certifiedEpoch := some 7, endEpoch := some 12 } ∧
    normalizeStoreReply exEmptyReply = Except.error unexpectedResponseMsg := by
  have h := store_reply_normalization
  exact ⟨h.1 exNewlyCreatedReply _ rfl, h.2.1 exAlreadyCertifiedReply _ rfl rfl,
    h.2.2 exEmptyReply rfl rfl⟩

def helloBase64 : String := "SGVsbG8="

def helloBytes : List Nat := [72, 101, 108, 108, 111]

/-- C2: the payload branch of `storeBlob` — exactly the payloads starting
with `/`, `./` or `../` are read from the filesystem, and every other payload
is base64-decoded into the byte buffer that becomes the request body;
`SGVsbG8=` decodes to the bytes of `Hello`. -/
theorem store_payload_branch :
    (∀ (fsys : String → Except String (List Nat)) (s : String),
      ((strStartsWith s "/" || strStartsWith s "./" || strStartsWith s "../") = true →
        resolvePayload fsys s = fsys s) ∧
      ((strStartsWith s "/" || strStartsWith s "./" || strStartsWith s "../") = false →
        resolvePayload fsys s = Except.ok (decodeBase64 s))) ∧
    decodeBase64 helloBase64 = helloBytes ∧
    helloBytes = (String.data "Hello").map Char.toNat := by
  refine ⟨fun fsys s => ⟨fun h => ?_, fun h => ?_⟩, by decide, by decide⟩
  · simp [resolvePayload, isFilePath, h]
  · simp [resolvePayload, isFilePath, h]

/-- A concrete filesystem with one file. -/
def exFsys : String → Except String (List Nat) := fun _ => .ok [1, 2, 3]

def exFilePathPayload : String := "./fixtures/a.bin"

/-- C2 witness: a path-shaped payload is handed to the filesystem read, and
the base64 payload `SGVsbG8=` resolves to the bytes of `Hello`. -/
theorem store_payload_branch_witness :
    resolvePayload exFsys exFilePathPayload = exFsys exFilePathPayload ∧
    resolvePayload exFsys helloBase64 = Except.ok helloBytes := by
  have h := store_payload_branch
  refine ⟨(h.1 exFsys exFilePathPayload).1 (by decide), ?_⟩
  rw [(h.1 exFsys helloBase64).2 (by decide), h.2.1]

/-- A payload of characters that are all outside the base64 alphabet. -/
def malformedPayload : String := "@@@@****!!"

/-- A publisher stub that accepts any bytes and answers with the synthetic
`newlyCreated` reply. -/
def exPut : List Nat → Int → HttpResult StoreReply :=
  fun _ _ => .success exNewlyCreatedReply

/-- C10: the base64 branch of `storeBlob` is total — for every payload that
is not path-shaped, the decoding step succeeds with the lenient decode
(invalid characters are dropped, never rejected), so `storeBlob` never fails
at decoding and a malformed payload is silently decoded and stored rather
than rejected with a validation error. -/
theorem base64_branch_total :
    (∀ (fsys : String → Except String (List Nat)) (s : String),
      isFilePath s = false → resolvePayload fsys s = Except.ok (decodeBase64 s)) ∧
    decodeBase64 malformedPayload = [] ∧
    (∀ (fsys : String → Except String (List Nat)) (e : Int) (s : String),
      isFilePath s = false →
      storeBlob fsys exPut s e = Except.ok
        { blobId := "blob-1", size := 42, encodedSize := 420
          storageId := "storage-1", certified := false }) := by
  refine ⟨fun fsys s h => ?_, by decide, fun fsys e s h => ?_⟩
  · simp [resolvePayload, h]
  · simp [storeBlob, resolvePayload, h, exPut, normalizeStoreReply, exNewlyCreatedReply]

/-- C10 witness: a payload of invalid base64 characters decodes to the empty
buffer and is stored without any validation error. -/
theorem base64_branch_total_witness :
    resolvePayload exFsys malformedPayload = Except.ok [] ∧
    storeBlob exFsys exPut malformedPayload 5 = Except.ok
      { blobId := "blob-1", size := 42, encodedSize := 420
        storageId := "storage-1", certified := false } := by
  have h := base64_branch_total
  refine ⟨?_, h.2.2 exFsys 5 malformedPayload (by decide)⟩
  rw [h.1 exFsys malformedPayload (by decide), h.2.1]

/-- C5: `getBlob` — a remote 404 raises `Blob not found` carrying the
requested identifier; any other failure raises `Failed to retrieve blob: `
carrying the remote-supplied error text when present (and, as everywhere in
the source's `a || b` chains, non-empty), else the transport error text; on
success the fetched bytes come back base64-encoded. -/
theorem fetch_contract :
    (∀ (remote : Option String) (msg id : String),
      getBlob (HttpResult.axiosError (some 404) remote msg) id =
        Except.error (blobNotFoundMsgStart ++ id)) ∧
    (∀ (status : Option Nat) (m msg id : String), status ≠ some 404 → m ≠ "" →
      getBlob (HttpResult.axiosError status (some m) msg) id =
        Except.error (retrieveFailMsgStart ++ m)) ∧
    (∀ (status : Option Nat) (msg id : String), status ≠ some 404 →
      getBlob (HttpResult.axiosError status none msg) id =
        Except.error (retrieveFailMsgStart ++ msg)) ∧
    (∀ (msg id : String),
      getBlob (HttpResult.jsError msg) id = Except.error (retrieveFailMsgStart ++ msg)) ∧
    (∀ (body : List Nat) (id : String),
      getBlob (HttpResult.success body) id = Except.ok (encodeBase64 body)) := by
  refine ⟨fun remote msg id => ?_, fun status m msg id hs hm => ?_,
    fun status msg id hs => ?_, fun msg id => rfl, fun body id => rfl⟩
  · simp [getBlob]
  · simp [getBlob, hs, jsOr, hm]
  · simp [getBlob, hs, jsOr]

def exBlobId : String := "0xabc123"

/-- C5 witness: a synthetic 404 yields `Blob not found` with the identifier;
a 500 with a remote error text carries that text; a network error with no
response carries the transport text; and a success body comes back
base64-encoded. -/
theorem fetch_contract_witness :
    getBlob (HttpResult.axiosError (some 404) none "Request failed with status code 404") exBlobId =
      Except.error "Blob not found: 0xabc123" ∧
    getBlob (HttpResult.axiosError (some 500) (some "storage node down") "Request failed") exBlobId =
      Except.error "Failed to retrieve blob: storage node down" ∧
    getBlob (HttpResult.axiosError none none "Network Error") exBlobId =
      Except.error "Failed to retrieve blob: Network Error" ∧
    getBlob (HttpResult.success helloBytes) exBlobId = Except.ok helloBase64 := by
  have h := fetch_contract
  refine ⟨h.1 none "Request failed with status code 404" exBlobId, ?_, ?_, ?_⟩
  · rw [h.2.1 (some 500) "storage node down" "Request failed" exBlobId
      (by decide) (by decide)]
    rfl
  · rw [h.2.2.1 none "Network Error" exBlobId (by decide)]
    rfl
  · rw [h.2.2.2.2 helloBytes exBlobId]
    rfl

/-- C6: `getBlobInfo` — on a successful headers-only probe the record's size
is the integer `parseInt` reads from the content-length header (0 when the
header is absent or empty, both falsy in `h || '0'`), and `certified` is true
unconditionally; a 404 raises `Blob not found` and any other failure raises
`Failed to get blob info: `. -/
theorem inspect_contract :
    (∀ (s : String) (n : Int) (id : String), jsParseInt s = some n →
      getBlobInfo (HttpResult.success (some s)) id = Except.ok
        { blobId := id, size := some n, encodedSize := some n
          storageId := id, certified := true }) ∧
    (∀ id : String, getBlobInfo (HttpResult.success none) id = Except.ok
      { blobId := id, size := some 0, encodedSize := some 0
        storageId := id, certified := true }) ∧
    (∀ (remote : Option String) (msg id : String),
      getBlobInfo (HttpResult.axiosError (some 404) remote msg) id =
        Except.error (blobNotFoundMsgStart ++ id)) ∧
    (∀ (status : Option Nat) (remote : Option String) (msg id : String),
      status ≠ some 404 →
      getBlobInfo (HttpResult.axiosError status remote msg) id =
        Except.error (infoFailMsgStart ++ jsOr remote msg)) ∧
    (∀ (msg id : String),
      getBlobInfo (HttpResult.jsError msg) id = Except.error (infoFailMsgStart ++ msg)) := by
  refine ⟨fun s n id hp => ?_, fun id => ?_, fun remote msg id => ?_,
    fun status remote msg id hs => ?_, fun msg id => rfl⟩
  · by_cases he : s = ""
    · rw [he] at hp
      rw [show jsParseInt "" = none from rfl] at hp
      exact Option.noConfusion hp
    · simp [getBlobInfo, jsOr, he, hp]
  · simp [getBlobInfo, jsOr]
    decide
  · simp [getBlobInfo]
  · simp [getBlobInfo, hs]

/-- C6 witness: a probe whose content-length header reads `1234` gives size
1234 and certified true; an absent header gives size 0; a 404 and a 500 give
the two error shapes. -/
theorem inspect_contract_witness :
    getBlobInfo (HttpResult.success (some "1234")) exBlobId = Except.ok
      { blobId := exBlobId, size := some 1234, encodedSize := some 1234
        storageId := exBlobId, certified := true } ∧
    getBlobInfo (HttpResult.success none) exBlobId = Except.ok
      { blobId := exBlobId, size := some 0, encodedSize := some 0
        storageId := exBlobId, certified := true } ∧
    getBlobInfo (HttpResult.axiosError (some 404) none "Request failed") exBlobId =
      Except.error "Blob not found: 0xabc123" ∧
    getBlobInfo (HttpResult.axiosError (some 500) none "Request failed") exBlobId =
      Except.error "Failed to get blob info: Request failed" := by
  have h := inspect_contract
  refine ⟨h.1 "1234" 1234 exBlobId (by decide), h.2.1 exBlobId,
    h.2.2.1 none "Request failed" exBlobId, ?_⟩
  rw [h.2.2.2.1 (some 500) none "Request failed" exBlobId (by decide)]
  rfl

/-- C8: `deleteBlob` returns the one fixed failure outcome for every
identifier, the empty string included, and — its body being a single object
literal — never throws. -/
theorem delete_always_fixed_failure :
    (∀ id : String, deleteBlob id = { success := false, message := deleteBlobMessage }) ∧
    deleteBlob "" = { success := false, message := deleteBlobMessage } :=
  ⟨fun _ => rfl, rfl⟩

/-- The fallback behaviour of one `o || e || d` configuration chain. -/
theorem jsOrChain_spec (o e : Option String) (d : String) :
    (∀ s, o = some s → s ≠ "" → jsOr (jsOrOpt o e) d = s) ∧
    (o = none ∨ o = some "" →
      (∀ s, e = some s → s ≠ "" → jsOr (jsOrOpt o e) d = s) ∧
      (e = none ∨ e = some "" → jsOr (jsOrOpt o e) d = d)) := by
  constructor
  · intro s ho hs
    simp [jsOr, jsOrOpt, ho, hs]
  · intro ho
    constructor
    · intro s he hs
      rcases ho with h | h <;> simp [jsOr, jsOrOpt, h, he, hs]
    · intro he
      rcases ho with h | h <;> rcases he with h2 | h2 <;> simp [jsOr, jsOrOpt, h, h2]

/-- The fallback behaviour of the wallet's `o || e` chain. -/
theorem jsOrOpt_spec (o e : Option String) :
    (∀ s, o = some s → s ≠ "" → jsOrOpt o e = some s) ∧
    (o = none ∨ o = some "" → jsOrOpt o e = e) := by
  constructor
  · intro s ho hs
    simp [jsOrOpt, ho, hs]
  · intro ho
    rcases ho with h | h <;> simp [jsOrOpt, h]

/-- An overrides object whose aggregator URL is explicitly given as the empty
string. -/
def emptyStringOverride : WalrusConfigOverrides := { aggregatorUrl := some "" }

def envAggregatorUrl : String := "https://aggregator.example"

/-- An environment with only WALRUS_AGGREGATOR_URL set. -/
def envWithAggregator : WalrusEnv := { aggregatorUrl := some envAggregatorUrl }

/-- C7 counterexample: the claim's fallback chain does not hold as stated.
With the explicit override given as the empty string the constructor resolves
the aggregator URL to the environment variable, not to the given override
(`||` tests truthiness, not presence); and with neither override nor
environment the wallet path resolves to nothing — it has no hardcoded
default. -/
theorem config_fallback_counterexample :
    (mkConfig (some emptyStringOverride) envWithAggregator).aggregatorUrl = envAggregatorUrl ∧
    (mkConfig (some emptyStringOverride) envWithAggregator).aggregatorUrl ≠ "" ∧
    (mkConfig none {}).wallet = none := by
  refine ⟨rfl, ?_, rfl⟩
  decide

/-- C7 (amended): each of the three endpoint/object options resolves to the
explicit override when given and non-empty, else to the environment variable
when set and non-empty, else to the hardcoded default — an empty string is
treated as absent; the wallet path resolves to a non-empty override, else to
the environment variable, with no hardcoded default.  Resolution is a pure
function of the overrides and the environment (`mkConfig`), computed once by
the constructor; nothing in the client ever rebinds `this.config`. -/
theorem config_fallback_chain :
    ∀ (cfg : WalrusConfigOverrides) (env : WalrusEnv),
      ((∀ s, cfg.aggregatorUrl = some s → s ≠ "" →
          (mkConfig (some cfg) env).aggregatorUrl = s) ∧
        (cfg.aggregatorUrl = none ∨ cfg.aggregatorUrl = some "" →
          (∀ s, env.aggregatorUrl = some s → s ≠ "" →
            (mkConfig (some cfg) env).aggregatorUrl = s) ∧
          (env.aggregatorUrl = none ∨ env.aggregatorUrl = some "" →
            (mkConfig (some cfg) env).aggregatorUrl = defaultAggregatorUrl))) ∧
      ((∀ s, cfg.publisherUrl = some s → s ≠ "" →
          (mkConfig (some cfg) env).publisherUrl = s) ∧
        (cfg.publisherUrl = none ∨ cfg.publisherUrl = some "" →
          (∀ s, env.publisherUrl = some s → s ≠ "" →
            (mkConfig (some cfg) env).publisherUrl = s) ∧
          (env.publisherUrl = none ∨ env.publisherUrl = some "" →
            (mkConfig (some cfg) env).publisherUrl = defaultPublisherUrl))) ∧
      ((∀ s, cfg.systemObject = some s → s ≠ "" →
          (mkConfig (some cfg) env).systemObject = s) ∧
        (cfg.systemObject = none ∨ cfg.systemObject = some "" →
          (∀ s, env.systemObject = some s → s ≠ "" →
            (mkConfig (some cfg) env).systemObject = s) ∧
          (env.systemObject = none ∨ env.systemObject = some "" →
            (mkConfig (some cfg) env).systemObject = defaultSystemObject))) ∧
      ((∀ s, cfg.wallet = some s → s ≠ "" →
          (mkConfig (some cfg) env).wallet = some s) ∧
        (cfg.wallet = none ∨ cfg.wallet = some "" →
          (mkConfig (some cfg) env).wallet = env.walletPath)) := by
  intro cfg env
  refine ⟨?_, ?_, ?_, ?_⟩
  · exact jsOrChain_spec cfg.aggregatorUrl env.aggregatorUrl defaultAggregatorUrl
  · exact jsOrChain_spec cfg.publisherUrl env.publisherUrl defaultPublisherUrl
  · exact jsOrChain_spec cfg.systemObject env.systemObject defaultSystemObject
  · exact jsOrOpt_spec cfg.wallet env.walletPath

def overrideAggregatorUrl : String := "https://aggregator.override"

/-- An overrides object with a non-empty aggregator URL. -/
def fullOverride : WalrusConfigOverrides := { aggregatorUrl := some overrideAggregatorUrl }

/-- C7 witness: a non-empty override wins over the environment; an
empty-string override falls back to the environment; nothing set gives the
hardcoded default and no wallet. -/
theorem config_fallback_chain_witness :
    (mkConfig (some fullOverride) envWithAggregator).aggregatorUrl = overrideAggregatorUrl ∧
    (mkConfig (some emptyStringOverride) envWithAggregator).aggregatorUrl = envAggregatorUrl ∧
    (mkConfig none {}).aggregatorUrl = defaultAggregatorUrl ∧
    (mkConfig none {}).wallet = none := by
  have h := config_fallback_chain
  refine ⟨(h fullOverride envWithAggregator).1.1 overrideAggregatorUrl rfl (by decide),
    ?_, rfl, rfl⟩
  exact ((h emptyStringOverride envWithAggregator).1.2 (Or.inr rfl)).1 envAggregatorUrl
    rfl (by decide)

/-- The `arguments` object of a tool call, restricted to the four argument
names the five zod schemas read; a missing key is `none`.  (zod tolerates and
drops unknown extra keys, so they need no representation.) -/
structure ToolArgs where
  data : Option String := none
  epochs : Option Int := none
  blobId : Option String := none
  limit : Option Int := none
deriving Repr, DecidableEq

/-- Stand-in for the message of the ZodError thrown on a missing required
field (the claims test only that an error envelope comes back, not the
ZodError's exact JSON wording). -/
def zodMissing (field : String) : String := "Required field missing: " ++ field

/-- `StoreBlobSchema.parse(args)`: `data` is required, `epochs` optional. -/
def parseStoreBlobArgs (a : ToolArgs) : Except String (String × Option Int) :=
  match a.data with
  | some d => .ok (d, a.epochs)
  | none => .error (zodMissing "data")

/-- `GetBlobSchema` / `DeleteBlobSchema` / `GetBlobInfoSchema` `.parse(args)`:
the three schemas are identical — `blobId` is required. -/
def parseBlobIdArgs (a : ToolArgs) : Except String String :=
  match a.blobId with
  | some b => .ok b
  | none => .error (zodMissing "blobId")

/-- `ListBlobsSchema.parse(args)`: `limit` is optional, nothing required. -/
def parseListBlobsArgs (a : ToolArgs) : Except String (Option Int) := .ok a.limit

/-- The walrusClient as the dispatcher awaits it: each method either returns
a value or rejects with an error message (the client has already wrapped
axios/fs failures into messages), so the handler's try/catch sees a uniform
`Except String`. -/
structure GatewayClient where
  storeBlob : String → Int → Except String BlobInfo
  getBlob : String → Except String String
  listBlobs : Int → Except String (List String)
  deleteBlob : String → Except String DeleteOutcome
  getBlobInfo : String → Except String InspectRecord
  getNetworkStatus : Except String NetworkStatus
  getConfig : Except String WalrusConfig

/-- A JSON string literal: quote and escape the two characters that occur in
this system's values. -/
def jsonString (s : String) : String :=
  "\x22" ++ String.mk (s.data.foldr (fun c acc =>
    if c = '\\' then '\\' :: '\\' :: acc
    else if c = '\x22' then '\\' :: '\x22' :: acc
    else c :: acc) []) ++ "\x22"

/-- A JSON number from a JavaScript number that may be `NaN`
(`JSON.stringify(NaN)` is `null`). -/
def jsonNum : Option Int → String
  | some i => toString i
  | none => "null"

/-- `JSON.stringify(obj, null, 2)` for a flat object given as (key, rendered
value) pairs; a key whose value is `undefined` is omitted. -/
def jsonObject2 (fields : List (String × Option String)) : String :=
  let rendered := fields.filterMap fun f =>
    f.2.map fun v => "  " ++ jsonString f.1 ++ ": " ++ v
  if rendered.isEmpty then "\x7b\x7d"
  else "\x7b\n" ++ String.intercalate ",\n" rendered ++ "\n\x7d"

/-- `JSON.stringify(list, null, 2)` for a list of strings. -/
def jsonStringArray2 (xs : List String) : String :=
  if xs.isEmpty then "[]"
  else "[\n" ++ String.intercalate ",\n" (xs.map fun x => "  " ++ jsonString x) ++ "\n]"

def jsonOfBlobInfo (b : BlobInfo) : String :=
  jsonObject2 [( "blobId", some (jsonString b.blobId)),
    ( "size", some (toString b.size)),
    ( "encodedSize", some (toString b.encodedSize)),
    ( "storageId", some (jsonString b.storageId)),
    ( "certified", some (cond b.certified "true" "false")),
    ( "certifiedEpoch", b.certifiedEpoch.map toString),
    ( "endEpoch", b.endEpoch.map toString)]

def jsonOfInspectRecord (r : InspectRecord) : String :=
  jsonObject2 [( "blobId", some (jsonString r.blobId)),
    ( "size", some (jsonNum r.size)),
    ( "encodedSize", some (jsonNum r.encodedSize)),
    ( "storageId", some (jsonString r.storageId)),
    ( "certified", some (cond r.certified "true" "false"))]

def jsonOfDeleteOutcome (o : DeleteOutcome) : String :=
  jsonObject2 [( "success", some (cond o.success "true" "false")),
    ( "message", some (jsonString o.message))]

def jsonOfNetworkStatus (s : NetworkStatus) : String :=
  jsonObject2 [( "epoch", some (toString s.epoch)),
    ( "networkSize", some (toString s.networkSize)),
    ( "totalStored", some (toString s.totalStored)),
    ( "availableStorage", some (toString s.availableStorage))]

def jsonOfWalrusConfig (c : WalrusConfig) : String :=
  jsonObject2 [( "aggregatorUrl", some (jsonString c.aggregatorUrl)),
    ( "publisherUrl", some (jsonString c.publisherUrl)),
    ( "systemObject", some (jsonString c.systemObject)),
    ( "wallet", c.wallet.map jsonString)]

/-- The protocol envelope the call-tool handler returns: one text content
item; `isError` is set only on the catch path (absent is falsy). -/
structure ToolResponse where
  text : String
  isError : Bool := false
deriving Repr, DecidableEq

/-- The CallToolRequestSchema handler: dispatch on the tool name (the
`switch`), parse the arguments, await the client method, wrap the result; the
`default` arm throws `Unknown tool: name`, and the surrounding try/catch
turns every thrown error into a soft envelope `Error: message` with
`isError: true` — the handler itself never rejects. -/
def callTool (c : GatewayClient) (name : String) (args : ToolArgs) : ToolResponse :=
  let body : Except String String :=
    if name = "store_blob" then do
      let p ← parseStoreBlobArgs args
      let info ← c.storeBlob p.1 (p.2.getD 5)
      pure (jsonOfBlobInfo info)
    else if name = "get_blob" then do
      let b ← parseBlobIdArgs args
      c.getBlob b
    else if name = "list_blobs" then do
      let l ← parseListBlobsArgs args
      let r ← c.listBlobs (l.getD 10)
      pure (jsonStringArray2 r)
    else if name = "delete_blob" then do
      let b ← parseBlobIdArgs args
      let r ← c.deleteBlob b
      pure (jsonOfDeleteOutcome r)
    else if name = "get_blob_info" then do
      let b ← parseBlobIdArgs args
      let r ← c.getBlobInfo b
      pure (jsonOfInspectRecord r)
    else .error ("Unknown tool: " ++ name)
  match body with
  | .ok t => { text := t }
  | .error m => { text := "Error: " ++ m, isError := true }

/-- One `contents` item of a resource read. -/
structure ResourceContents where
  uri : String
  mimeType : String
  text : String
deriving Repr, DecidableEq

/-- The ReadResourceRequestSchema handler: the two known URIs produce
contents; any other URI throws `Unknown resource: uri`; the catch does not
recover — it rethrows every error wrapped as `Failed to read resource uri:`,
so the handler rejects (`Except.error`), unlike the call-tool handler. -/
def readResource (c : GatewayClient) (uri : String) : Except String ResourceContents :=
  let body : Except String ResourceContents :=
    if uri = "walrus://status" then do
      let s ← c.getNetworkStatus
      pure { uri := uri, mimeType := "application/json", text := jsonOfNetworkStatus s }
    else if uri = "walrus://config" then do
      let cfg ← c.getConfig
      pure { uri := uri, mimeType := "application/json", text := jsonOfWalrusConfig cfg }
    else .error ("Unknown resource: " ++ uri)
  match body with
  | .ok r => .ok r
  | .error m => .error ("Failed to read resource " ++ uri ++ ": " ++ m)

/-- One inbound protocol request. -/
inductive McpRequest where
  | tool (name : String) (args : ToolArgs)
  | resource (uri : String)
deriving Repr, DecidableEq

/-- One outbound protocol reply: a tool envelope, resource contents, or a
protocol-level error reply for the one request whose handler rejected. -/
inductive McpReply where
  | toolResult (r : ToolResponse)
  | resourceResult (r : ResourceContents)
  | requestFault (message : String)
deriving Repr, DecidableEq

/-- Modelled from the spec: the MCP SDK stdio transport loop
(`server.connect(transport)` — the SDK is not part of this repository)
delivers requests one at a time; a handler that rejects makes that single
request come back as a protocol-level error reply, and the loop goes on to
the next request — the process does not exit. -/
def handleRequest (c : GatewayClient) : McpRequest → McpReply
  | .tool name args => .toolResult (callTool c name args)
  | .resource uri =>
      match readResource c uri with
      | .ok r => .resourceResult r
      | .error m => .requestFault m

/-- Modelled from the spec: the transport loop serves the request stream one
request at a time, each independently. -/
def serveRequests (c : GatewayClient) (rs : List McpRequest) : List McpReply :=
  rs.map (handleRequest c)

/-- The five names of the tool catalog. -/
def toolNames : List String :=
  ["store_blob", "get_blob", "list_blobs", "delete_blob", "get_blob_info"]

/-- C3: the call-tool handler never propagates a thrown fault.  A missing
required argument, an unknown tool name (which the message names), and an
error rejected by any of the five gateway methods all come back as a soft
envelope whose `isError` flag is true and whose text carries the message. -/
theorem call_tool_soft_errors :
    (∀ c : GatewayClient, callTool c "store_blob" {} =
      { text := "Error: " ++ zodMissing "data", isError := true }) ∧
    (∀ (c : GatewayClient) (name : String), name = "get_blob" ∨ name = "delete_blob" ∨
      name = "get_blob_info" → callTool c name {} =
      { text := "Error: " ++ zodMissing "blobId", isError := true }) ∧
    (∀ (c : GatewayClient) (args : ToolArgs) (name : String), name ∉ toolNames →
      callTool c name args =
        { text := "Error: " ++ ("Unknown tool: " ++ name), isError := true }) ∧
    (∀ (c : GatewayClient) (args : ToolArgs) (d m : String), args.data = some d →
      c.storeBlob d (args.epochs.getD 5) = Except.error m →
      callTool c "store_blob" args = { text := "Error: " ++ m, isError := true }) ∧
    (∀ (c : GatewayClient) (args : ToolArgs) (b m : String), args.blobId = some b →
      c.getBlob b = Except.error m →
      callTool c "get_blob" args = { text := "Error: " ++ m, isError := true }) ∧
    (∀ (c : GatewayClient) (args : ToolArgs) (m : String),
      c.listBlobs (args.limit.getD 10) = Except.error m →
      callTool c "list_blobs" args = { text := "Error: " ++ m, isError := true }) ∧
    (∀ (c : GatewayClient) (args : ToolArgs) (b m : String), args.blobId = some b →
      c.deleteBlob b = Except.error m →
      callTool c "delete_blob" args = { text := "Error: " ++ m, isError := true }) ∧
    (∀ (c : GatewayClient) (args : ToolArgs) (b m : String), args.blobId = some b →
      c.getBlobInfo b = Except.error m →
      callTool c "get_blob_info" args = { text := "Error: " ++ m, isError := true }) := by
  refine ⟨fun c => rfl, fun c name h => ?_, fun c args name h => ?_,
    fun c args d m hd hs => ?_, fun c args b m hb hg => ?_, fun c args m hl => ?_,
    fun c args b m hb hdel => ?_, fun c args b m hb hi => ?_⟩
  · rcases h with h | h | h <;> subst h <;> rfl
  · simp only [toolNames, List.mem_cons, List.not_mem_nil, or_false, not_or] at h
    obtain ⟨h1, h2, h3, h4, h5⟩ := h
    simp [callTool, h1, h2, h3, h4, h5]
  · simp [callTool, parseStoreBlobArgs, hd, hs, bind, Except.bind, Functor.map, Except.map]
  · simp [callTool, parseBlobIdArgs, hb, hg, bind, Except.bind]
  · simp [callTool, parseListBlobsArgs, hl, bind, Except.bind, Functor.map, Except.map]
  · simp [callTool, parseBlobIdArgs, hb, hdel, bind, Except.bind, Functor.map, Except.map]
  · simp [callTool, parseBlobIdArgs, hb, hi, bind, Except.bind, Functor.map, Except.map]

/-- A gateway client whose every method rejects, to exercise the catch path. -/
def exFailingClient : GatewayClient :=
  { storeBlob := fun _ _ => .error "Failed to store blob: store boom"
    getBlob := fun _ => .error "Failed to retrieve blob: get boom"
    listBlobs := fun _ => .error "list boom"
    deleteBlob := fun _ => .error "delete boom"
    getBlobInfo := fun _ => .error "Failed to get blob info: info boom"
    getNetworkStatus := .error "status boom"
    getConfig := .error "config boom" }

/-- C3 witness: `store_blob` with empty arguments, a nonexistent tool name,
and a rejecting gateway call each produce a soft `isError` envelope at
concrete inputs. -/
theorem call_tool_soft_errors_witness :
    callTool exFailingClient "store_blob" {} =
      { text := "Error: Required field missing: data", isError := true } ∧
    callTool exFailingClient "nonexistent_tool" {} =
      { text := "Error: Unknown tool: nonexistent_tool", isError := true } ∧
    callTool exFailingClient "store_blob" { data := some "SGVsbG8=" } =
      { text := "Error: Failed to store blob: store boom", isError := true } ∧
    callTool exFailingClient "get_blob" { blobId := some "0xabc123" } =
      { text := "Error: Failed to retrieve blob: get boom", isError := true } := by
  have h := call_tool_soft_errors
  refine ⟨h.1 exFailingClient, ?_, ?_, ?_⟩
  · rw [h.2.2.1 exFailingClient {} "nonexistent_tool" (by decide)]
    rfl
  · rw [h.2.2.2.1 exFailingClient { data := some "SGVsbG8=" } "SGVsbG8="
      "Failed to store blob: store boom" rfl rfl]
    rfl
  · rw [h.2.2.2.2.1 exFailingClient { blobId := some "0xabc123" } "0xabc123"
      "Failed to retrieve blob: get boom" rfl rfl]
    rfl

/-- C4: reading any URI other than the two known resources is a hard fault —
the handler rejects (`Except.error`) with a message naming the URI instead of
recovering into a soft `isError` envelope as the call-tool handler does — and
in the (spec-modelled) transport loop that fault answers only the one
request: the remaining requests are served unchanged and the process goes
on. -/
theorem read_resource_unknown_uri_hard_fault :
    ∀ (c : GatewayClient) (uri : String),
      uri ≠ "walrus://status" → uri ≠ "walrus://config" →
      readResource c uri = Except.error
        ("Failed to read resource " ++ uri ++ ": " ++ ("Unknown resource: " ++ uri)) ∧
      ∀ rs : List McpRequest, serveRequests c (McpRequest.resource uri :: rs) =
        McpReply.requestFault
          ("Failed to read resource " ++ uri ++ ": " ++ ("Unknown resource: " ++ uri)) ::
          serveRequests c rs := by
  intro c uri h1 h2
  have hfault : readResource c uri = Except.error
      ("Failed to read resource " ++ uri ++ ": " ++ ("Unknown resource: " ++ uri)) := by
    simp [readResource, h1, h2]
  refine ⟨hfault, fun rs => ?_⟩
  simp [serveRequests, handleRequest, hfault]

/-- C4 witness: an unknown URI faults with a message naming it, and the next
request in the stream is still served. -/
theorem read_resource_unknown_uri_hard_fault_witness :
    readResource exFailingClient "walrus://nope" = Except.error
      "Failed to read resource walrus://nope: Unknown resource: walrus://nope" ∧
    serveRequests exFailingClient
        [McpRequest.resource "walrus://nope", McpRequest.tool "delete_blob" {}] =
      [McpReply.requestFault
        "Failed to read resource walrus://nope: Unknown resource: walrus://nope",
        McpReply.toolResult
          { text := "Error: Required field missing: blobId", isError := true }] := by
  have h := read_resource_unknown_uri_hard_fault exFailingClient "walrus://nope"
    (by decide) (by decide)
  refine ⟨h.1, ?_⟩
  rw [h.2 [McpRequest.tool "delete_blob" {}]]
  rfl

/-- A heap of configuration objects (address = index), modelling JavaScript
object identity for `this.config` and for the object `{ ...this.config }`
that `getConfig` returns. -/
structure ConfigHeap where
  objs : List WalrusConfig
deriving Repr, DecidableEq

/-- Dereference an object address. -/
def readObj (h : ConfigHeap) (a : Nat) : Option WalrusConfig := h.objs[a]?

/-- Mutate the object at an address (a caller writing a property of an object
it holds a reference to). -/
def writeObj (h : ConfigHeap) (a : Nat) (v : WalrusConfig) : ConfigHeap :=
  ⟨h.objs.set a v⟩

/-- Allocate a fresh object; its address is the previous heap size. -/
def allocObj (h : ConfigHeap) (v : WalrusConfig) : ConfigHeap × Nat :=
  (⟨h.objs ++ [v]⟩, h.objs.length)

/-- `getConfig()` is `return { ...this.config }`: allocate a fresh object
whose fields are spread-copied from the client's config object and return its
address (`none` only for a dangling client address, which never arises). -/
def getConfigRef (h : ConfigHeap) (clientAddr : Nat) : ConfigHeap × Option Nat :=
  match readObj h clientAddr with
  | some cfg => ((allocObj h cfg).1, some (allocObj h cfg).2)
  | none => (h, none)

/-- C9: `getConfig` hands out a defensive copy.  The returned address holds
the same field values as the client's config but is a fresh address distinct
from it, and writing any value through the returned address leaves the
client's stored config — and therefore what the next `getConfig` copies —
unchanged. -/
theorem getConfig_defensive_copy :
    ∀ (h : ConfigHeap) (ca : Nat) (cfg : WalrusConfig), readObj h ca = some cfg →
      (getConfigRef h ca).2 = some h.objs.length ∧
      readObj (getConfigRef h ca).1 h.objs.length = some cfg ∧
      h.objs.length ≠ ca ∧
      (∀ v, readObj (writeObj (getConfigRef h ca).1 h.objs.length v) ca = some cfg) ∧
      (∀ v, readObj (getConfigRef (writeObj (getConfigRef h ca).1 h.objs.length v) ca).1
        ((writeObj (getConfigRef h ca).1 h.objs.length v).objs.length) = some cfg) := by
  intro h ca cfg hread
  have hlt : ca < h.objs.length := by
    have := List.getElem?_eq_some.mp hread
    exact this.1
  have hne : h.objs.length ≠ ca := Nat.ne_of_gt hlt
  have hcopy : (getConfigRef h ca).1 = ⟨h.objs ++ [cfg]⟩ := by
    simp [getConfigRef, hread, allocObj]
  have haddr : (getConfigRef h ca).2 = some h.objs.length := by
    simp [getConfigRef, hread, allocObj]
  have hfresh : readObj (getConfigRef h ca).1 h.objs.length = some cfg := by
    rw [hcopy]
    exact List.getElem?_concat_length h.objs cfg
  have hframe : ∀ v, readObj (writeObj (getConfigRef h ca).1 h.objs.length v) ca = some cfg := by
    intro v
    rw [hcopy]
    show ((h.objs ++ [cfg]).set h.objs.length v)[ca]? = some cfg
    rw [List.getElem?_set_ne hne, List.getElem?_append_left hlt]
    exact hread
  refine ⟨haddr, hfresh, hne, hframe, fun v => ?_⟩
  have h2 := hframe v
  set W := writeObj (getConfigRef h ca).1 h.objs.length v with hW
  rw [show (getConfigRef W ca).1 = ⟨W.objs ++ [cfg]⟩ by simp [getConfigRef, h2, allocObj]]
  exact List.getElem?_concat_length _ cfg

/-- A one-object heap holding the client's resolved default config at
address 0. -/
def exHeap : ConfigHeap := ⟨[mkConfig none {}]⟩

/-- A mutation a caller could attempt on the returned snapshot. -/
def exMutated : WalrusConfig :=
  { aggregatorUrl := "http://evil.example", publisherUrl := "", systemObject := "" }

/-- C9 witness: on a concrete heap the snapshot lands at the fresh address 1
with the same value, and clobbering it leaves the client's object at address
0 — and the next snapshot taken from it — unchanged. -/
theorem getConfig_defensive_copy_witness :
    (getConfigRef exHeap 0).2 = some 1 ∧
    readObj (getConfigRef exHeap 0).1 1 = some (mkConfig none {}) ∧
    readObj (writeObj (getConfigRef exHeap 0).1 1 exMutated) 0 = some (mkConfig none {}) ∧
    readObj (getConfigRef (writeObj (getConfigRef exHeap 0).1 1 exMutated) 0).1 2 =
      some (mkConfig none {}) := by
  have h := getConfig_defensive_copy exHeap 0 (mkConfig none {}) rfl
  exact ⟨h.1, h.2.1, h.2.2.2.1 exMutated, h.2.2.2.2 exMutated⟩
